import Mathlib

/-!
# Verification of the dashboard polling / cascading-fetch synchronization core

Shallow embedding of the client-side live-data synchronization logic of the
dashboard panels (MetricsPanel, DriftPanel, AlertsPanel, ErrorsPanel,
ExecutionsPanel, and the Dashboard aggregator).

The JavaScript runtime is single-threaded with cooperative scheduling:
state-setter calls inside promise handlers are synchronous and atomic, and a
panel's behaviour is fully determined by the interleaving of user events
(selection / filter changes), timer ticks, and fetch completions.  We model
each panel as an explicit state record together with a step function over an
event alphabet; a trace is a list of events folded over the initial state.

JS string truthiness is modelled by `truthy` (the empty string standing for
`""`, `null` and `undefined`, which all behave identically under the guards
that occur in the code).  React semantics used by the embedding: a state
setter invoked from a promise handler after the owning component has
unmounted performs no update and raises no error; this is represented by a
`mounted` flag consulted when a completion's handlers would update state.
-/

/-- JS truthiness of the string-valued fields tested by the panels' guards
(`!selectedQuery?.sql`, `agentType || undefined`, `if (error)`):
empty (or absent) is falsy, any non-empty string is truthy. -/
def truthy (s : String) : Bool := s ≠ ""

/-- Does `needle` occur as a contiguous run somewhere in `l`? -/
def charsContain (needle : List Char) : List Char → Bool
  | [] => needle.isEmpty
  | c :: t => needle.isPrefixOf (c :: t) || charsContain needle t

/-- JS `String.prototype.includes`: `hay.includes(needle)` is true exactly
when `needle` occurs as a substring of `hay` (the empty needle always
occurs). -/
def jsIncludes (hay needle : String) : Bool := charsContain needle.data hay.data

/-- Outcome of a network fetch as seen by the promise chain: the decoded
payload on fulfilment, or a transport error carrying `err.message`. -/
inductive FetchOutcome (α : Type) where
  | success (val : α)
  | failure (msg : String)
deriving DecidableEq, Repr

/-! ## Payload shapes (decoded JSON, §6 of the data contracts) -/

/-- One entry of `GET /metrics`' `overall` object. -/
structure OverallMetrics where
  total_evaluations : Nat
  passed : Nat
  failed : Nat
  accuracy : Rat
  avg_score : Rat
deriving DecidableEq, Repr

/-- One entry of `GET /metrics`' `per_agent` mapping. -/
structure AgentMetrics where
  total : Nat
  passed : Nat
  accuracy : Rat
  avg_score : Rat
deriving DecidableEq, Repr

/-- Decoded `GET /metrics` payload. -/
structure Metrics where
  overall : OverallMetrics
  per_agent : List (String × AgentMetrics)
deriving DecidableEq, Repr

/-- One sample of `GET /drift`'s `high_drift_samples`; this is exactly the
record stored into `selectedQuery` when a row is clicked in DriftPanel. -/
structure DriftSample where
  query_id : String
  query_text : String
  sql : String
  agent_type : String
  drift_score : Rat
  classification : String
deriving DecidableEq, Repr

/-- One entry of `GET /drift`'s `distribution` mapping. -/
structure DriftLevelStat where
  count : Nat
  avg_drift_score : Rat
deriving DecidableEq, Repr

/-- Decoded `GET /drift` payload. -/
structure DriftData where
  distribution : List (String × DriftLevelStat)
  total_anomalies : Nat
  high_drift_samples : List DriftSample
deriving DecidableEq, Repr

/-- One alert of `GET /alerts`. -/
structure Alert where
  id : String
  severity : String
  title : String
  message : String
  reason : String
  timestamp : String
deriving DecidableEq, Repr

/-- A database row of `POST /debug/execute`'s `results`, a record of
column-name/value pairs (values already stringified for display). -/
abbrev Row := List (String × String)

/-- Decoded `POST /debug/execute` response: `{ status: 'ok'|'error',
results?, error? }`, the tagged union stored into `execResult`. -/
inductive CascadeResult where
  | ok (results : List Row)
  | error (msg : String)
deriving DecidableEq, Repr

/-! ## DriftPanel's cascading fetcher (the `useEffect [selectedQuery]`)

State of the selection-driven execute fetch, together with the runtime
bookkeeping needed to express interleavings: `pending` lists the in-flight
`executeSql` promises (issue id paired with the selection they were issued
for), and `calls` is the append-only log of network calls actually issued,
used to state "no network call" properties. -/

structure ExecState where
  selectedQuery : Option DriftSample
  execResult : Option CascadeResult
  execLoading : Bool
  pending : List (Nat × DriftSample)
  nextId : Nat
  calls : List (Nat × String × String)
deriving DecidableEq, Repr

/-- Body of DriftPanel's `useEffect(() => {...}, [selectedQuery])`, run after
`selectedQuery` changes:
* `!selectedQuery?.sql || !selectedQuery?.agent_type` → `setExecResult(null)`
  and return (no fetch);
* `selectedQuery.sql.includes("Not Available")` →
  `setExecResult({status:'error', error:'No SQL recorded.'})` and return;
* otherwise `setExecLoading(true)` and issue
  `executeSql(selectedQuery.sql, selectedQuery.agent_type)`.
The effect installs no cleanup, and the promise handlers consult no token. -/
def runSelectionEffect (s : ExecState) : ExecState :=
  match s.selectedQuery with
  | none => { s with execResult := none }
  | some q =>
    if ¬ truthy q.sql ∨ ¬ truthy q.agent_type then
      { s with execResult := none }
    else if jsIncludes q.sql "Not Available" then
      { s with execResult := some (.error "No SQL recorded.") }
    else
      { s with execLoading := true,
               pending := s.pending ++ [(s.nextId, q)],
               nextId := s.nextId + 1,
               calls := s.calls ++ [(s.nextId, q.sql, q.agent_type)] }

/-- User event `setSelectedQuery sel` (row click, or the Close button with
`null`): the state update re-renders and the `[selectedQuery]` effect runs. -/
def stepSelect (sel : Option DriftSample) (s : ExecState) : ExecState :=
  runSelectionEffect { s with selectedQuery := sel }

/-- Resolution of in-flight `executeSql` promise `id`.  The handlers are
`.then(res => setExecResult(res))`,
`.catch(err => setExecResult({status:'error', error: err.message}))`,
`.finally(() => setExecLoading(false))` -- applied unconditionally, with no
comparison against the current selection. -/
def stepComplete (id : Nat) (outcome : FetchOutcome CascadeResult)
    (s : ExecState) : ExecState :=
  if s.pending.any (fun p => p.1 = id) then
    let s' := { s with pending := s.pending.filter (fun p => p.1 ≠ id) }
    match outcome with
    | .success res => { s' with execResult := some res, execLoading := false }
    | .failure msg =>
        { s' with execResult := some (.error msg), execLoading := false }
  else s

/-- Events of the cascading fetcher. -/
inductive CascadeEvent where
  | select (sel : Option DriftSample)
  | complete (id : Nat) (outcome : FetchOutcome CascadeResult)
deriving Repr

/-- One step of the cascading fetcher. -/
def cascadeStep (s : ExecState) (e : CascadeEvent) : ExecState :=
  match e with
  | .select sel => stepSelect sel s
  | .complete id outcome => stepComplete id outcome s

/-- Initial execution state of a freshly mounted DriftPanel:
`useState(null)` for `selectedQuery` and `execResult`, `useState(false)` for
`execLoading`; nothing in flight, nothing called. -/
def execInit : ExecState :=
  { selectedQuery := none, execResult := none, execLoading := false,
    pending := [], nextId := 0, calls := [] }

/-- Run a trace of cascade events from the initial state. -/
def runCascade (events : List CascadeEvent) : ExecState :=
  events.foldl cascadeStep execInit

/-- The "Query Output" box of DriftPanel's render (checked in this order):
`execLoading` → loading text; `!execResult` → "No output data.";
`status === 'error'` → the error message; `results.length === 0` →
"0 rows returned."; otherwise the rows table. -/
inductive OutputView where
  | loadingOutput
  | noData
  | errorText (msg : String)
  | zeroRows
  | rowsTable (rows : List Row)
deriving DecidableEq, Repr

/-- DriftPanel's query-output render function. -/
def renderOutput (s : ExecState) : OutputView :=
  if s.execLoading then .loadingOutput
  else
    match s.execResult with
    | none => .noData
    | some (.error m) => .errorText m
    | some (.ok []) => .zeroRows
    | some (.ok rows) => .rowsTable rows

/-! ## Poll state of MetricsPanel / DriftPanel / ErrorsPanel

These three panels share the handler shape
`fetchX().then(setData).catch(e => setError(e.message))`:
`setData` touches only `data`, `setError` touches only `error`; neither
handler touches the other field, and nothing ever resets `error`. -/

/-- `useState(null)` pair `data` / `error` of MetricsPanel, DriftPanel and
ErrorsPanel, generic in the decoded payload type. -/
structure PollState (α : Type) where
  data : Option α
  error : Option String
deriving DecidableEq, Repr

/-- Initial poll state on mount: `useState(null)` twice. -/
def pollInitState (α : Type) : PollState α := { data := none, error := none }

/-- The fulfilment handler `setData`: replaces `data`, leaves `error`. -/
def pollSuccess {α : Type} (d : α) (s : PollState α) : PollState α :=
  { s with data := some d }

/-- The rejection handler `setError(e.message)`: replaces `error`, leaves
`data`. -/
def pollFailure {α : Type} (msg : String) (s : PollState α) : PollState α :=
  { s with error := some msg }

/-- Apply a settled fetch outcome through the panel's promise chain. -/
def pollApply {α : Type} (o : FetchOutcome α) (s : PollState α) : PollState α :=
  match o with
  | .success d => pollSuccess d s
  | .failure m => pollFailure m s

/-- MetricsPanel / DriftPanel / ErrorsPanel top-level render guards:
`if (error) return <error-msg>; if (!data) return <loading>;` otherwise the
data view.  The error view replaces everything else when `error` is truthy. -/
inductive PanelView (α : Type) where
  | errorView (msg : String)
  | loadingView
  | dataView (d : α)
deriving DecidableEq, Repr

/-- Render function of the `data`/`error` panels (JS truthiness on the
stored error message). -/
def panelRender {α : Type} (s : PollState α) : PanelView α :=
  match s.error with
  | some m => if truthy m then .errorView m else
      match s.data with
      | none => .loadingView
      | some d => .dataView d
  | none =>
      match s.data with
      | none => .loadingView
      | some d => .dataView d

/-! ## AlertsPanel / ExecutionsPanel poll state

These two panels have no error field at all: the catch handler is
`err => { console.error(...); setLoading(false); }` -- the failure message
is dropped and only the loading flag is cleared. -/

/-- AlertsPanel's `useState([])` / `useState(true)` pair. -/
structure AlertsState where
  alerts : List Alert
  loading : Bool
deriving DecidableEq, Repr

/-- Initial alerts state on mount. -/
def alertsInit : AlertsState := { alerts := [], loading := true }

/-- `loadAlerts`' promise chain: fulfilment does `setAlerts(data);
setLoading(false)`, rejection does `console.error(...); setLoading(false)`
(no state records the message). -/
def alertsApply (o : FetchOutcome (List Alert)) (s : AlertsState) :
    AlertsState :=
  match o with
  | .success d => { alerts := d, loading := false }
  | .failure _ => { s with loading := false }

/-- AlertsPanel render guard: `if (loading && alerts.length === 0)` shows
the loading screen, otherwise the full panel with the alert list (there is
no error indicator anywhere in the panel). -/
inductive AlertsView where
  | loadingAlerts
  | alertsPanelView (alerts : List Alert)
deriving DecidableEq, Repr

/-- AlertsPanel's render function. -/
def alertsRender (s : AlertsState) : AlertsView :=
  if s.loading ∧ s.alerts = [] then .loadingAlerts
  else .alertsPanelView s.alerts

/-! ## Promise-chain settlement (error propagation past the boundary)

A rejected fetch whose chain has no `.catch` would surface as an unhandled
rejection escaping the component; a chain ending in `.catch` always settles
into a state update.  `runChain` is the generic translation of
`fetch().then(onSuccess)[.catch(onFailure)]`. -/

/-- Result of running a promise chain to completion: either a state update
was applied, or the rejection escaped uncaught. -/
inductive Settled (σ : Type) where
  | state (s : σ)
  | uncaught (msg : String)
deriving DecidableEq, Repr

/-- Run a `then`/`catch` chain on a settled outcome: success goes through
the fulfilment handler; failure is absorbed by the catch handler when one is
installed and escapes otherwise. -/
def runChain {α σ : Type} (onSuccess : α → σ → σ)
    (onFailure : Option (String → σ → σ)) (o : FetchOutcome α) (s : σ) :
    Settled σ :=
  match o with
  | .success d => .state (onSuccess d s)
  | .failure m =>
      match onFailure with
      | some h => .state (h m s)
      | none => .uncaught m

/-- MetricsPanel's chain `fetchMetrics().then(setData).catch(e =>
setError(e.message))`. -/
def metricsChain (o : FetchOutcome Metrics) (s : PollState Metrics) :
    Settled (PollState Metrics) :=
  runChain pollSuccess (some pollFailure) o s

/-- AlertsPanel's chain `fetchAlerts().then(...).catch(err => {...})`. -/
def alertsChain (o : FetchOutcome (List Alert)) (s : AlertsState) :
    Settled AlertsState :=
  runChain (fun d _ => { alerts := d, loading := false })
    (some (fun _ s => { s with loading := false })) o s

/-! ## Poller runtime (mount, interval ticks, completions, unmount)

`useEffect(() => { load(); const interval = setInterval(load, ms);
return () => clearInterval(interval); }, [])` for MetricsPanel,
ErrorsPanel, AlertsPanel, ExecutionsPanel and the health poll.  `setInterval`
fires on every elapsed period regardless of whether an earlier fetch is
still outstanding, so several fetches can be in flight at once; each
completion runs its handlers when it settles.  The React runtime makes a
state-setter call a no-op (raising nothing) once the component has
unmounted, which the `mounted` flag captures; `applied` logs, in completion
order, the fetch ids whose handlers actually updated state. -/

structure PollerRun (σ : Type) where
  mounted : Bool
  timerActive : Bool
  st : σ
  pending : List Nat
  nextId : Nat
  applied : List Nat
deriving DecidableEq, Repr

/-- Events driving a poller: an interval tick, a fetch settling, and the
unmount cleanup (`clearInterval`). -/
inductive PollEvent (α : Type) where
  | tick
  | complete (id : Nat) (outcome : FetchOutcome α)
  | unmount
deriving Repr

/-- One step of the poller runtime, parameterized by the panel's
handler chain `apply` (how a settled outcome updates the panel state). -/
def pollerStep {α σ : Type} (apply : FetchOutcome α → σ → σ)
    (s : PollerRun σ) (e : PollEvent α) : PollerRun σ :=
  match e with
  | .tick =>
      if s.timerActive then
        { s with pending := s.pending ++ [s.nextId], nextId := s.nextId + 1 }
      else s
  | .complete id outcome =>
      if s.pending.contains id then
        let s' := { s with pending := s.pending.filter (fun i => i ≠ id) }
        if s'.mounted then
          { s' with st := apply outcome s'.st, applied := s'.applied ++ [id] }
        else s'
      else s
  | .unmount => { s with mounted := false, timerActive := false }

/-- Poller state just after mount: the effect body has run `load()` once
(fetch 0 is in flight) and installed the interval. -/
def pollerInit {σ : Type} (init : σ) : PollerRun σ :=
  { mounted := true, timerActive := true, st := init,
    pending := [0], nextId := 1, applied := [] }

/-- Run a trace of poller events from the just-mounted state. -/
def runPoller {α σ : Type} (apply : FetchOutcome α → σ → σ) (init : σ)
    (events : List (PollEvent α)) : PollerRun σ :=
  events.foldl (pollerStep apply) (pollerInit init)

/-! ## DriftPanel's scoped poller (the `useEffect [filter]`)

`load(agentType)` is `fetchDrift(agentType || undefined).then(setData)
.catch(e => setError(e.message))`.  The effect keyed on `[filter]` runs
`load(filter)` immediately and installs `setInterval(() => load(filter),
3000)`; its cleanup clears that interval, so a filter change tears the old
interval down and immediately fetches and re-arms under the new value.  The
interval callback closes over the `filter` value current when the effect
ran.  Completion handlers consult no scope token: whichever fetch settles
last writes `data`, whatever scope it was issued under. -/

/-- The query parameter actually sent: `agentType || undefined` -- an empty
filter sends no `agent_type` parameter. -/
def driftParam (agentType : String) : Option String :=
  if truthy agentType then some agentType else none

/-- Runtime state of DriftPanel's drift poll: the `filter` state, the
`data`/`error` poll state, the scope captured by the live interval's
closure, the in-flight `fetchDrift` calls tagged with the parameter they
were issued with, and the log of issued calls. -/
structure DriftRun where
  filter : String
  st : PollState DriftData
  timerScope : Option String
  pending : List (Nat × Option String)
  nextId : Nat
  calls : List (Nat × Option String)
deriving DecidableEq, Repr

/-- Issue `load(agentType)`: one `fetchDrift(agentType || undefined)` call
goes on the wire and into `pending`. -/
def driftIssue (agentType : String) (s : DriftRun) : DriftRun :=
  { s with pending := s.pending ++ [(s.nextId, driftParam agentType)],
           nextId := s.nextId + 1,
           calls := s.calls ++ [(s.nextId, driftParam agentType)] }

/-- Events driving the drift poll: the user changing the filter (the
`[filter]` effect cleanup + body re-run), an interval tick, and a
`fetchDrift` completion. -/
inductive DriftEvent where
  | setFilter (v : String)
  | tick
  | complete (id : Nat) (outcome : FetchOutcome DriftData)
deriving Repr

/-- One step of the drift poll runtime. -/
def driftStep (s : DriftRun) (e : DriftEvent) : DriftRun :=
  match e with
  | .setFilter v =>
      driftIssue v { s with filter := v, timerScope := some v }
  | .tick =>
      match s.timerScope with
      | some scope => driftIssue scope s
      | none => s
  | .complete id outcome =>
      if s.pending.any (fun p => p.1 = id) then
        { s with pending := s.pending.filter (fun p => p.1 ≠ id),
                 st := pollApply outcome s.st }
      else s

/-- DriftPanel just after mount: `filter` is `''`, the effect has issued
`load('')` (fetch 0, no `agent_type` parameter) and armed the interval for
the empty scope. -/
def driftInit : DriftRun :=
  { filter := "", st := pollInitState DriftData, timerScope := some "",
    pending := [(0, none)], nextId := 1, calls := [(0, none)] }

/-- Run a trace of drift-poll events from the just-mounted state. -/
def runDrift (events : List DriftEvent) : DriftRun :=
  events.foldl driftStep driftInit

/-! ## Dashboard aggregator's health signal -/

/-- One agent's entry in `GET /health`'s snapshot. -/
structure AgentHealth where
  status : String
deriving DecidableEq, Repr

/-- Decoded `GET /health` payload; `agents` may be absent from the JSON
(the code defends with `health.agents || {}`). -/
structure HealthSnapshot where
  agents : Option (List (String × AgentHealth))
deriving DecidableEq, Repr

/-- The aggregate liveness signal of the Dashboard:
`health ? Object.values(health.agents || {}).every(a => a.status === 'ok')
: false`.  Note `Array.prototype.every` is vacuously true on an empty
array. -/
def agentsUp (health : Option HealthSnapshot) : Bool :=
  match health with
  | none => false
  | some h => (h.agents.getD []).all (fun p => p.2.status = "ok")

/-! ## Concrete fixtures used by counterexamples and witnesses -/

/-- A fulfilled `executeSql` outcome mapped through the handlers: the
decoded response on fulfilment, `{status:'error', error: err.message}` on
rejection. -/
def cascadeOutcomeResult : FetchOutcome CascadeResult → CascadeResult
  | .success r => r
  | .failure m => .error m

/-- Sample high-drift row X (executable payload). -/
def selX : DriftSample := ⟨"qx", "tx", "SELECT X", "spend", 1, "high"⟩

/-- Sample high-drift row Y (executable payload). -/
def selY : DriftSample := ⟨"qy", "ty", "SELECT Y", "demand", 2, "high"⟩

/-- Sample row whose stored SQL is the "Not Available" sentinel and whose
`agent_type` is empty (falsy). -/
def sel8 : DriftSample := ⟨"q8", "t8", "Not Available", "", 0, "high"⟩

/-- Sample row whose stored SQL is the "Not Available" sentinel with a
truthy `agent_type`. -/
def selNA : DriftSample := ⟨"q9", "t9", "Not Available", "spend", 0, "high"⟩

/-- Sample row with executable SQL but empty (falsy) `agent_type`. -/
def sel10 : DriftSample := ⟨"q10", "t10", "SELECT 1", "", 0, "high"⟩

/-- Execute response belonging to selection X. -/
def resX : CascadeResult := .ok [[("v", "X")]]

/-- Execute response belonging to selection Y. -/
def resY : CascadeResult := .ok [[("v", "Y")]]

/-- The selection-race trace: select X, select Y while X's fetch is in
flight, Y's fetch resolves first, X's resolves last. -/
def c1trace : List CascadeEvent :=
  [.select (some selX), .select (some selY),
   .complete 1 (.success resY), .complete 0 (.success resX)]

/-- The select-X / X-resolves / select-Y trace used to observe the state
while Y's fetch is still pending. -/
def c9trace : List CascadeEvent :=
  [.select (some selX), .complete 0 (.success resX), .select (some selY)]

/-- Drift payload returned for the old scope A. -/
def dA : DriftData := ⟨[("normal", ⟨1, 0⟩)], 0, []⟩

/-- Drift payload returned for the new scope B. -/
def dB : DriftData := ⟨[("normal", ⟨2, 0⟩)], 5, []⟩

/-- The stale-scope trace: switch to scope `spend` (fetch 1), then to scope
`demand` (fetch 2); fetch 2 resolves first, fetch 1 resolves last. -/
def c3trace : List DriftEvent :=
  [.setFilter "spend", .setFilter "demand",
   .complete 2 (.success dB), .complete 1 (.success dA)]

/-- Older metrics payload (from the earlier-issued fetch). -/
def m1 : Metrics := ⟨⟨1, 1, 0, 100, 1⟩, []⟩

/-- Newer metrics payload (from the later-issued fetch). -/
def m2 : Metrics := ⟨⟨2, 2, 0, 100, 1⟩, []⟩

/-- The out-of-order completion trace for the metrics poller: the interval
fires while fetch 0 is outstanding (issuing fetch 1), fetch 1 resolves
first, fetch 0 resolves last. -/
def c7trace : List (PollEvent Metrics) :=
  [.tick, .complete 1 (.success m2), .complete 0 (.success m1)]

/-! ## Helper lemmas -/

/-- A string containing the sentinel substring is non-empty, hence truthy. -/
lemma truthy_of_includes_sentinel (s : String) :
    jsIncludes s "Not Available" = true → truthy s = true := by
  intro h
  by_contra hc
  have hs : s = "" := by
    simpa [truthy] using hc
  rw [hs] at h
  exact absurd h (by decide)

/-- Any event leaves the panel state of an unmounted poller unchanged and
keeps it unmounted. -/
lemma pollerStep_unmounted {α σ : Type} (apply : FetchOutcome α → σ → σ)
    (s : PollerRun σ) (e : PollEvent α) (h : s.mounted = false) :
    (pollerStep apply s e).st = s.st ∧ (pollerStep apply s e).mounted = false := by
  cases e with
  | tick => simp [pollerStep]; split <;> simp [h]
  | complete id o =>
      simp only [pollerStep]
      split
      · simp [h]
      · simp [h]
  | unmount => simp [pollerStep]

/-- A whole trace of events leaves the panel state of an unmounted poller
unchanged. -/
lemma pollerFold_unmounted {α σ : Type} (apply : FetchOutcome α → σ → σ)
    (events : List (PollEvent α)) :
    ∀ (s : PollerRun σ), s.mounted = false →
      (events.foldl (pollerStep apply) s).st = s.st := by
  induction events with
  | nil => intro s _; rfl
  | cons e es ih =>
      intro s h
      have hstep := pollerStep_unmounted apply s e h
      simpa [List.foldl, hstep.1] using ih (pollerStep apply s e) hstep.2

/-! ## Claims -/

/-- C1 counterexample.  Select X (fetch 0 issued for X), select Y (fetch 1
issued for Y), Y's fetch resolves with `resY`, then X's stale fetch
resolves with `resX`: the stale response is *not* discarded -- it
overwrites `execResult` (which held `resY`) with `resX`, so the displayed
execution result belongs to the superseded selection X while the current
selection is Y.  This falsifies the claim that a fetch completing after a
selection change produces no state mutation. -/
theorem C1_counterexample :
    (runCascade c1trace).selectedQuery = some selY ∧
    (runCascade c1trace).execResult = some resX ∧
    (runCascade (c1trace.take 3)).execResult = some resY ∧
    (runCascade (c1trace.take 3)).pending = [(0, selX)] ∧
    resX ≠ resY := by decide

/-- C1 (amended): DriftPanel's selection-driven execute fetch applies every
completion unconditionally -- the handlers compare no token against the
current selection, so a response belonging to a superseded selection is
applied exactly like a current one: completing any in-flight fetch sets
`execResult` to that response (decoded payload on fulfilment, error-tagged
result on rejection) and clears `execLoading`, leaving the current
selection unchanged.  The displayed result therefore corresponds to the
most recently *completed* fetch, not necessarily the current selection. -/
theorem C1_stale_completion_applied (s : ExecState) (id : Nat)
    (outcome : FetchOutcome CascadeResult)
    (h : s.pending.any (fun p => p.1 = id) = true) :
    (stepComplete id outcome s).execResult =
      some (cascadeOutcomeResult outcome) ∧
    (stepComplete id outcome s).execLoading = false ∧
    (stepComplete id outcome s).selectedQuery = s.selectedQuery := by
  cases outcome <;> simp [stepComplete, h, cascadeOutcomeResult]

/-- C1 witness: completing stale fetch 0 (issued for X) in the state where
the current selection is already Y applies X's response. -/
theorem C1_witness :
    (stepComplete 0 (.success resX) (runCascade (c1trace.take 3))).execResult
        = some resX ∧
    (stepComplete 0 (.success resX)
        (runCascade (c1trace.take 3))).selectedQuery = some selY :=
  have h := C1_stale_completion_applied (runCascade (c1trace.take 3)) 0
    (.success resX) (by decide)
  ⟨h.1, by rw [h.2.2]; decide⟩

/-- C2 counterexample.  Starting from the just-mounted MetricsPanel state,
apply success `m1`, failure `"boom"`, success `m2` through the panel's
promise chain (`then(setData)` / `catch(e => setError(e.message))`): after
the second success `data` is `m2` as claimed, but `error` still holds
`"boom"` -- a success never clears `error` back to null, falsifying the
error-clearing half of the claim. -/
theorem C2_counterexample :
    (pollApply (.success m2) (pollApply (.failure "boom")
        (pollApply (.success m1) (pollInitState Metrics)))).data = some m2 ∧
    (pollApply (.success m2) (pollApply (.failure "boom")
        (pollApply (.success m1) (pollInitState Metrics)))).error
      = some "boom" ∧
    (pollApply (.failure "boom")
        (pollApply (.success m1) (pollInitState Metrics))).data = some m1 := by
  decide

/-- C2 (amended): for the MetricsPanel / DriftPanel / ErrorsPanel promise
chain, a failed poll leaves `data` unchanged (data is only ever replaced by
a newer success) and a successful poll leaves `error` unchanged -- `error`
is *never* cleared by a success; it keeps the most recent failure message.
After success, failure, success: `data` equals the first success's value
until the second success lands, then the second's, while `error` holds the
failure message (not null). -/
theorem C2_last_known_good {α : Type} (d v1 v2 : α) (msg m : String)
    (s s0 : PollState α) :
    (pollFailure msg s).data = s.data ∧
    (pollSuccess d s).data = some d ∧
    (pollSuccess d s).error = s.error ∧
    (pollFailure msg s).error = some msg ∧
    (pollApply (.failure m) (pollApply (.success v1) s0)).data = some v1 ∧
    pollApply (.success v2) (pollApply (.failure m)
        (pollApply (.success v1) s0)) = ⟨some v2, some m⟩ := by
  simp [pollApply, pollSuccess, pollFailure]

/-- C3 counterexample.  From the mounted DriftPanel (scope `''`, fetch 0 in
flight), switch the filter to `spend` (fetch 1 issued under `spend`), then
to `demand` (fetch 2 issued under `demand`); fetch 2 resolves first with
`dB`, then the stale scope-`spend` fetch 1 resolves with `dA`: the final
`data` is `dA`, fetched under the old scope, while the filter is `demand`
-- falsifying the stale-scope guard for every arrival order. -/
theorem C3_counterexample :
    (runDrift c3trace).filter = "demand" ∧
    (runDrift c3trace).st.data = some dA ∧
    (runDrift (c3trace.take 3)).st.data = some dB ∧
    (runDrift c3trace).calls =
      [(0, none), (1, some "spend"), (2, some "demand")] ∧
    dA ≠ dB := by decide

/-- C3 (amended): changing the filter does immediately issue one fetch
under the new scope (and re-arms the interval for it), but completions are
merged with no scope comparison: resolving any in-flight `fetchDrift`
applies its outcome to `data`/`error` exactly as a current-scope response
would, whatever scope it was issued under -- so the final `data` reflects
whichever response completed last, not necessarily the current scope's. -/
theorem C3_scope_change (v : String) (s : DriftRun) (id : Nat)
    (o : FetchOutcome DriftData)
    (h : s.pending.any (fun p => p.1 = id) = true) :
    (driftStep s (.setFilter v)).calls = s.calls ++ [(s.nextId, driftParam v)] ∧
    (driftStep s (.setFilter v)).filter = v ∧
    (driftStep s (.setFilter v)).timerScope = some v ∧
    (driftStep s (.complete id o)).st = pollApply o s.st ∧
    (driftStep s (.complete id o)).filter = s.filter := by
  refine ⟨rfl, rfl, rfl, ?_, ?_⟩ <;> simp [driftStep, h]

/-- C3 witness: in the just-mounted DriftPanel, switching the scope to
`spend` logs a `spend`-scoped call, and completing the in-flight unscoped
fetch 0 merges its payload. -/
theorem C3_witness :
    (driftStep driftInit (.setFilter "spend")).calls
        = [(0, none), (1, some "spend")] ∧
    (driftStep driftInit (.setFilter "spend")).filter = "spend" ∧
    (driftStep driftInit (.complete 0 (.success dA))).st.data = some dA :=
  have h := C3_scope_change "spend" driftInit 0 (.success dA) (by decide)
  ⟨by rw [h.1]; decide, h.2.1, by rw [h.2.2.2.1]; decide⟩

/-- C4 counterexample.  A non-null health snapshot whose agent mapping is
empty yields `agentsUp = true`: `Array.prototype.every` is vacuously true
on `Object.values({})`, so the code reports "all agents online" for `{}`,
while the claim requires not-all-ok for an empty mapping. -/
theorem C4_counterexample :
    agentsUp (some ⟨some []⟩) = true := by decide

/-- C4 (amended): the aggregate "all agents online" signal is true iff the
snapshot is non-null and every entry of its (possibly empty) agent mapping
has status `'ok'` -- vacuously true for a non-null snapshot with an empty
mapping.  A null/absent snapshot yields false; `{a: ok, b: ok}` yields
true; `{a: ok, b: degraded}` yields false; `{}` yields true (not false as
the original claim states). -/
theorem C4_agents_up (hs : Option HealthSnapshot) :
    (agentsUp hs = true ↔
      ∃ h, hs = some h ∧ ∀ p ∈ h.agents.getD [], p.2.status = "ok") ∧
    agentsUp none = false ∧
    agentsUp (some ⟨some [("a", ⟨"ok"⟩), ("b", ⟨"ok"⟩)]⟩) = true ∧
    agentsUp (some ⟨some [("a", ⟨"ok"⟩), ("b", ⟨"degraded"⟩)]⟩) = false ∧
    agentsUp (some ⟨some []⟩) = true := by
  refine ⟨?_, by decide, by decide, by decide, by decide⟩
  cases hs with
  | none => simp [agentsUp]
  | some h => simp [agentsUp, List.all_eq_true]

/-- C5: after a poller's panel unmounts (the effect cleanup has run
`clearInterval`), the timer is inactive and no sequence of further events
-- interval ticks, and in particular the resolution of any fetch that was
in flight at teardown, with any outcome -- changes the panel's state.  The
step function is total, so no event raises an error either (the React
runtime makes a state-setter call on an unmounted component a no-op).
Holds for every poller: the statement is generic in the payload type, the
panel state type and the panel's handler chain. -/
theorem C5_teardown {α σ : Type} (apply : FetchOutcome α → σ → σ)
    (s : PollerRun σ) (events : List (PollEvent α)) :
    (pollerStep apply s .unmount).mounted = false ∧
    (pollerStep apply s .unmount).timerActive = false ∧
    (events.foldl (pollerStep apply) (pollerStep apply s .unmount)).st
      = s.st := by
  exact ⟨rfl, rfl,
    pollerFold_unmounted apply events (pollerStep apply s .unmount) rfl⟩

/-- C6 counterexample.  MetricsPanel after a success (`m1`) followed by a
failure (`"boom"`): `data` still holds the last-known-good payload, but the
render guard `if (error) return <error-msg>` makes the error view replace
the whole panel -- the last-known-good data is *not* displayed alongside an
error indicator. -/
theorem C6_counterexample :
    (pollFailure "boom" (pollSuccess m1 (pollInitState Metrics))).data
        = some m1 ∧
    panelRender (pollFailure "boom" (pollSuccess m1 (pollInitState Metrics)))
        = .errorView "boom" ∧
    panelRender (pollFailure "boom" (pollSuccess m1 (pollInitState Metrics)))
        ≠ .dataView m1 := by decide

/-- C6 (amended): a failed fetch never escapes the component boundary --
every panel's promise chain ends in a catch handler, so any outcome settles
into a state update.  But the failure's disposition differs by panel:
MetricsPanel (and DriftPanel / ErrorsPanel) stores the message in `error`
and then renders the error view *instead of* the data; AlertsPanel (and
ExecutionsPanel) does not store the failure at all -- the handler only
clears the loading flag, is independent of the message, and the panel
(which has no error indicator) keeps displaying the last-known-good alert
list. -/
theorem C6_error_disposition (msg msg2 : String) (d : List Alert)
    (sm : PollState Metrics) (sa : AlertsState) (o : FetchOutcome Metrics)
    (oa : FetchOutcome (List Alert)) (h : truthy msg = true) :
    (∃ s', metricsChain o sm = .state s') ∧
    (∃ s', alertsChain oa sa = .state s') ∧
    (pollFailure msg sm).error = some msg ∧
    (pollFailure msg sm).data = sm.data ∧
    panelRender (pollFailure msg sm) = .errorView msg ∧
    alertsApply (.failure msg) sa = { sa with loading := false } ∧
    alertsApply (.failure msg) sa = alertsApply (.failure msg2) sa ∧
    alertsRender (alertsApply (.failure msg) (alertsApply (.success d) sa))
      = .alertsPanelView d := by
  refine ⟨?_, ?_, rfl, rfl, ?_, rfl, rfl, ?_⟩
  · cases o <;> exact ⟨_, rfl⟩
  · cases oa <;> exact ⟨_, rfl⟩
  · simp [panelRender, pollFailure, h]
  · simp [alertsRender, alertsApply]

/-- C6 witness: concrete instantiation -- a `"boom"` failure on both
panels, after a success carrying one alert on the alerts side. -/
theorem C6_witness :
    panelRender (pollFailure "boom" (pollInitState Metrics))
        = .errorView "boom" ∧
    alertsRender (alertsApply (.failure "boom") (alertsApply
        (.success [⟨"1", "info", "t", "m", "r", "ts"⟩]) alertsInit))
      = .alertsPanelView [⟨"1", "info", "t", "m", "r", "ts"⟩] :=
  have h := C6_error_disposition "boom" "other" [⟨"1", "info", "t", "m", "r", "ts"⟩]
    (pollInitState Metrics) alertsInit (.failure "x") (.failure "y") (by decide)
  ⟨h.2.2.2.2.1, h.2.2.2.2.2.2.2⟩

/-- C7 counterexample.  MetricsPanel poller: fetch 0 is in flight from
mount; the interval elapses while it is outstanding and fetch 1 is issued
anyway (two fetches in flight -- the tick is not skipped); the
later-issued fetch 1 resolves first with `m2`, then the earlier-issued
fetch 0 resolves with `m1` and is applied rather than discarded: `data`
reverts from the newer success `m2` to the older `m1`. -/
theorem C7_counterexample :
    (runPoller pollApply (pollInitState Metrics) [.tick]).pending = [0, 1] ∧
    (runPoller pollApply (pollInitState Metrics)
        (c7trace.take 2)).st.data = some m2 ∧
    (runPoller pollApply (pollInitState Metrics) c7trace).st.data
        = some m1 ∧
    m1 ≠ m2 := by decide

/-- C7 (amended): result application is ordered by completion time with
*last completion wins* and no sequence guard: while the panel is mounted,
resolving any in-flight fetch with a success replaces `data` with that
response, whatever its issue order, so an older-issued response resolving
later does overwrite a newer one; and a timer tick while fetches are
outstanding issues a further overlapping fetch rather than skipping. -/
theorem C7_completion_order (s : PollerRun (PollState Metrics)) (id : Nat)
    (d : Metrics) (hm : s.mounted = true)
    (hp : s.pending.contains id = true) :
    (pollerStep pollApply s (.complete id (.success d))).st.data = some d ∧
    (s.timerActive = true →
      (pollerStep pollApply s .tick).pending = s.pending ++ [s.nextId]) := by
  constructor
  · have hmem : id ∈ s.pending := by simpa using hp
    simp [pollerStep, hp, hm, hmem, pollApply, pollSuccess]
  · intro ht
    simp [pollerStep, ht]

/-- C7 witness: the just-mounted metrics poller (fetch 0 in flight, timer
armed) -- completing fetch 0 with `m1` stores it, and a tick appends
fetch 1 while fetch 0 is still outstanding. -/
theorem C7_witness :
    (pollerStep pollApply (pollerInit (pollInitState Metrics))
        (.complete 0 (.success m1))).st.data = some m1 ∧
    (pollerStep pollApply (pollerInit (pollInitState Metrics))
        (.tick : PollEvent Metrics)).pending = [0, 1] :=
  have h := C7_completion_order (pollerInit (pollInitState Metrics)) 0 m1
    (by decide) (by decide)
  ⟨h.1, by rw [h.2 (by decide)]; decide⟩

/-- C8 counterexample.  A selection whose stored SQL is exactly the
`"Not Available"` sentinel but whose `agent_type` is empty falls into the
first guard (`!selectedQuery?.agent_type`): the result is set to `null`,
not to the synthetic error result the claim requires for every
sentinel-payload selection (no network call is issued either way). -/
theorem C8_counterexample :
    jsIncludes sel8.sql "Not Available" = true ∧
    (stepSelect (some sel8) execInit).execResult = none ∧
    (stepSelect (some sel8) execInit).execResult
        ≠ some (.error "No SQL recorded.") := by decide

/-- C8 (amended): for every selection whose stored SQL contains the
`"Not Available"` sentinel, no `executeSql` network call is issued and
nothing is added to the in-flight set; additionally, when the selection's
`agent_type` is truthy the result is set immediately to the synthetic error
result `{status:'error', error:'No SQL recorded.'}` (with a falsy
`agent_type` the earlier no-payload guard sets the result to `null`
instead). -/
theorem C8_sentinel_shortcut (sel : DriftSample) (s : ExecState)
    (h : jsIncludes sel.sql "Not Available" = true) :
    (stepSelect (some sel) s).calls = s.calls ∧
    (stepSelect (some sel) s).pending = s.pending ∧
    (truthy sel.agent_type = true →
      (stepSelect (some sel) s).execResult
        = some (.error "No SQL recorded.")) := by
  have ht := truthy_of_includes_sentinel sel.sql h
  by_cases ha : truthy sel.agent_type = true
  · simp [stepSelect, runSelectionEffect, ht, ha, h]
  · simp [stepSelect, runSelectionEffect, ht, ha, h]

/-- C8 witness: the sentinel selection with a truthy `agent_type` in the
initial state -- immediate synthetic error, no call logged. -/
theorem C8_witness :
    (stepSelect (some selNA) execInit).calls = [] ∧
    (stepSelect (some selNA) execInit).execResult
      = some (.error "No SQL recorded.") :=
  have h := C8_sentinel_shortcut selNA execInit (by decide)
  ⟨by rw [h.1]; rfl, h.2.2 (by decide)⟩



/-- C9 counterexample.  Select X, let X's fetch resolve (result holds X's
response), then select executable Y: while Y's fetch is pending the state
still holds X's result -- `execResult` was *not* reset to null before the
fetch was issued (only `execLoading` was set; the render shows loading
solely because the loading flag takes precedence). -/
theorem C9_counterexample :
    (runCascade c9trace).selectedQuery = some selY ∧
    (runCascade c9trace).execLoading = true ∧
    (runCascade c9trace).execResult = some resX ∧
    (runCascade c9trace).execResult ≠ none := by decide

/-- C9 (amended): choosing a new selection with an executable payload sets
`execLoading` to true and issues exactly one `executeSql` call carrying the
selection's SQL and agent type, but leaves `execResult` unchanged (the
previous selection's result stays in state until a completion overwrites
it); the UI nevertheless shows the loading view while the fetch is pending
because the render checks `execLoading` first.  On fetch failure the
transport failure's message is mapped into the error-tagged result's error
field. -/
theorem C9_loading_no_reset (sel : DriftSample) (s s' : ExecState)
    (id : Nat) (msg : String)
    (h1 : truthy sel.sql = true) (h2 : truthy sel.agent_type = true)
    (h3 : jsIncludes sel.sql "Not Available" = false)
    (h4 : s'.pending.any (fun p => p.1 = id) = true) :
    (stepSelect (some sel) s).execLoading = true ∧
    (stepSelect (some sel) s).execResult = s.execResult ∧
    (stepSelect (some sel) s).calls
        = s.calls ++ [(s.nextId, sel.sql, sel.agent_type)] ∧
    renderOutput (stepSelect (some sel) s) = .loadingOutput ∧
    (stepComplete id (.failure msg) s').execResult = some (.error msg) := by
  refine ⟨?_, ?_, ?_, ?_, ?_⟩ <;>
    simp [stepSelect, runSelectionEffect, stepComplete, renderOutput,
      h1, h2, h3, h4]

/-- C9 witness: selecting executable X in the initial state, and failing an
in-flight fetch with message `"network down"` in the state where X's fetch
is pending. -/
theorem C9_witness :
    (stepSelect (some selX) execInit).execLoading = true ∧
    (stepSelect (some selX) execInit).execResult = none ∧
    renderOutput (stepSelect (some selX) execInit) = .loadingOutput ∧
    (stepComplete 0 (.failure "network down")
        (stepSelect (some selX) execInit)).execResult
      = some (.error "network down") :=
  have h := C9_loading_no_reset selX execInit
    (stepSelect (some selX) execInit) 0 "network down"
    (by decide) (by decide) (by decide) (by decide)
  ⟨h.1, h.2.1, h.2.2.2.1, h.2.2.2.2⟩

/-- C10: for every non-null selection lacking a truthy `sql` or a truthy
`agent_type`, the selection effect sets `execResult` to null and changes
nothing else -- no network call is issued, nothing joins the in-flight set,
and the resulting state is exactly the one a cleared/null selection
produces (up to the stored selection itself); with no fetch pending the
output box renders "No output data.", not a synthetic error. -/
theorem C10_no_payload_clears (sel : DriftSample) (s : ExecState)
    (h : truthy sel.sql = false ∨ truthy sel.agent_type = false) :
    stepSelect (some sel) s
        = { s with selectedQuery := some sel, execResult := none } ∧
    stepSelect none s = { s with selectedQuery := none, execResult := none } ∧
    (s.execLoading = false →
      renderOutput (stepSelect (some sel) s) = .noData) := by
  rcases h with h | h <;>
    simp [stepSelect, runSelectionEffect, renderOutput, h]

/-- C10 witness: a selection with executable SQL but empty `agent_type`
chosen in the initial state. -/
theorem C10_witness :
    stepSelect (some sel10) execInit
        = { execInit with selectedQuery := some sel10, execResult := none } ∧
    renderOutput (stepSelect (some sel10) execInit) = .noData :=
  have h := C10_no_payload_clears sel10 execInit (by decide)
  ⟨h.1, h.2.2 (by decide)⟩
